import Mathlib

/-!
Verification of the reservation scheduling core of the meeting-room booking
system (apps/bookings).  Times are embedded as `Int` minutes: the code's
timezone-aware datetimes are instants, and every threshold in the code is a
whole number of minutes (900 s = 15 min, 28800 s = 480 min), so minute
granularity is faithful for all properties considered here.
-/

deriving instance DecidableEq for Except

namespace MeetingRoomSaas

/-- Reservation status enum, from `Reservation.STATUS_CHOICES`
(apps/bookings/models.py). -/
inductive Status
  | pending
  | confirmed
  | cancelled
  | completed
  | in_use
  | rejected
deriving DecidableEq, Repr, Fintype

/-- Membership in `conflicting_statuses = [STATUS_PENDING, STATUS_CONFIRMED,
STATUS_IN_USE]` (models.py `Reservation.clean`, forms.py, views.py). -/
def Status.isBlocking : Status → Bool
  | .pending => true
  | .confirmed => true
  | .in_use => true
  | _ => false

/-- A meeting room row: `MeetingRoom` (models.py).  Only the fields the
booking core reads are embedded. -/
structure MeetingRoom where
  id : Nat
  company : Nat
  capacity : Int
  is_available : Bool
deriving DecidableEq, Repr

/-- A stored reservation row: `Reservation` (models.py).  `pk` is the
database primary key; `meeting_room` is the room's id. -/
structure Reservation where
  pk : Nat
  meeting_room : Nat
  start_time : Int
  end_time : Int
  status : Status
deriving DecidableEq, Repr

/-- A candidate reservation as seen by `Reservation.clean`: `pk = none` for a
new row (create), `pk = some p` when updating row `p`. -/
structure ReservationDraft where
  pk : Option Nat
  meeting_room : Nat
  start_time : Int
  end_time : Int
  status : Status
  participant_count : Option Int
deriving DecidableEq, Repr

/-- Per-tenant policy knobs: `ReservationConfig` (models.py).  Work times are
minutes after midnight. -/
structure ReservationConfig where
  max_advance_days : Int
  min_duration_minutes : Int
  max_duration_hours : Int
  allow_weekend_booking : Bool
  work_start_time : Int
  work_end_time : Int
  require_approval : Bool
  auto_approval : Bool
deriving DecidableEq, Repr

/-- The row filter of the conflict queryset in `Reservation.clean`
(models.py lines 188-200): same room, blocking status, and
`start_time__lt=self.end_time, end_time__gt=self.start_time`. -/
def conflictsWith (cand : ReservationDraft) (r : Reservation) : Bool :=
  decide (r.meeting_room = cand.meeting_room) && r.status.isBlocking &&
    decide (r.start_time < cand.end_time) && decide (r.end_time > cand.start_time)

/-- The conflict queryset of `Reservation.clean`: on create (`pk is None`) no
exclusion, on update the candidate's own row is excluded
(`.exclude(pk=self.pk)`). -/
def conflictingReservations (cand : ReservationDraft) (existing : List Reservation) :
    List Reservation :=
  match cand.pk with
  | none => existing.filter (conflictsWith cand)
  | some p => (existing.filter (conflictsWith cand)).filter (fun r => decide (r.pk ≠ p))

/-- `conflicting.exists()` in `Reservation.clean`. -/
def hasConflict (cand : ReservationDraft) (existing : List Reservation) : Bool :=
  !(conflictingReservations cand existing).isEmpty

theorem conflictsWith_eq_true_iff (cand : ReservationDraft) (r : Reservation) :
    conflictsWith cand r = true ↔
      r.meeting_room = cand.meeting_room ∧ r.status.isBlocking = true ∧
        r.start_time < cand.end_time ∧ r.end_time > cand.start_time := by
  simp [conflictsWith, and_assoc]

theorem mem_conflictingReservations (cand : ReservationDraft) (existing : List Reservation)
    (r : Reservation) :
    r ∈ conflictingReservations cand existing ↔
      r ∈ existing ∧ conflictsWith cand r = true ∧ (∀ p, cand.pk = some p → r.pk ≠ p) := by
  unfold conflictingReservations
  cases hpk : cand.pk with
  | none => simp [List.mem_filter]
  | some p =>
      simp only [List.mem_filter, decide_eq_true_iff]
      constructor
      · rintro ⟨⟨hm, hc⟩, hne⟩
        exact ⟨hm, hc, fun q hq => by injection hq with h; exact h ▸ hne⟩
      · rintro ⟨hm, hc, hall⟩
        exact ⟨⟨hm, hc⟩, hall p rfl⟩

theorem hasConflict_eq_true_iff (cand : ReservationDraft) (existing : List Reservation) :
    hasConflict cand existing = true ↔
      ∃ r ∈ existing, conflictsWith cand r = true ∧ ∀ p, cand.pk = some p → r.pk ≠ p := by
  unfold hasConflict
  rw [Bool.not_eq_true', List.isEmpty_eq_false_iff_exists_mem]
  constructor
  · rintro ⟨r, hr⟩
    exact ⟨r, (mem_conflictingReservations cand existing r).mp hr⟩
  · rintro ⟨r, hm, hc, hall⟩
    exact ⟨r, (mem_conflictingReservations cand existing r).mpr ⟨hm, hc, hall⟩⟩

/-- Claim C1: the conflict check of `Reservation.clean` rejects a candidate iff
some existing reservation on the same room, with blocking status (pending,
confirmed, in_use), other than the candidate's own row on update, satisfies
`existing.start < candidate.end ∧ existing.end > candidate.start`; a
reservation touching the candidate only at an endpoint is never a conflict,
and a reservation with non-blocking status (cancelled, rejected, completed)
never blocks. -/
theorem claim_C1 (cand : ReservationDraft) (existing : List Reservation) :
    (hasConflict cand existing = true ↔
      ∃ r ∈ existing, r.meeting_room = cand.meeting_room ∧ r.status.isBlocking = true ∧
        (∀ p, cand.pk = some p → r.pk ≠ p) ∧
        r.start_time < cand.end_time ∧ r.end_time > cand.start_time)
    ∧ (∀ r : Reservation, r.end_time = cand.start_time ∨ r.start_time = cand.end_time →
        conflictsWith cand r = false)
    ∧ (∀ r : Reservation, r.status.isBlocking = false → conflictsWith cand r = false) := by
  refine ⟨?_, ?_, ?_⟩
  · rw [hasConflict_eq_true_iff]
    constructor
    · rintro ⟨r, hm, hc, hall⟩
      obtain ⟨h1, h2, h3, h4⟩ := (conflictsWith_eq_true_iff cand r).mp hc
      exact ⟨r, hm, h1, h2, hall, h3, h4⟩
    · rintro ⟨r, hm, h1, h2, hall, h3, h4⟩
      exact ⟨r, hm, (conflictsWith_eq_true_iff cand r).mpr ⟨h1, h2, h3, h4⟩, hall⟩
  · intro r hr
    rcases hr with h | h <;>
      simp [conflictsWith, h]
  · intro r hr
    simp [conflictsWith, hr]

theorem claim_C1_witness :
    conflictsWith ⟨none, 1, 540, 600, .pending, none⟩ ⟨7, 1, 600, 660, .confirmed⟩ = false :=
  (claim_C1 ⟨none, 1, 540, 600, .pending, none⟩ []).2.1 ⟨7, 1, 600, 660, .confirmed⟩
    (Or.inr rfl)

/-! ### Availability calculator (`get_available_time_slots`, forms.py) -/

/-- One entry of the `available_slots` list built by
`get_available_time_slots`; the dict keys are `start`, `end` (here `stop`,
since `end` is reserved) and `duration` (minutes). -/
structure TimeSlot where
  start : Int
  stop : Int
  duration : Int
deriving DecidableEq, Repr

/-- The cursor sweep of `get_available_time_slots` (forms.py lines 596-623):
for each reservation in order a gap slot is emitted when the cursor is before
the reservation's start and the gap is at least `duration_minutes`, the cursor
advances to `max(cursor, reservation.end_time)`, and after the loop a final
slot up to `work_end` is emitted when the cursor is before `work_end` and the
remainder is at least `duration_minutes`. -/
def sweepSlots (work_end duration_minutes : Int) :
    Int → List Reservation → List TimeSlot
  | current_time, [] =>
      if current_time < work_end ∧ work_end - current_time ≥ duration_minutes then
        [⟨current_time, work_end, work_end - current_time⟩]
      else []
  | current_time, r :: rest =>
      (if current_time < r.start_time ∧ r.start_time - current_time ≥ duration_minutes then
        [⟨current_time, r.start_time, r.start_time - current_time⟩]
      else []) ++ sweepSlots work_end duration_minutes (max current_time r.end_time) rest

/-- Insertion into a list sorted by `start_time`; models the
`order_by('start_time')` of the day's reservation query. -/
def insertByStart (r : Reservation) : List Reservation → List Reservation
  | [] => [r]
  | x :: xs =>
      if r.start_time ≤ x.start_time then r :: x :: xs else x :: insertByStart r xs

def sortByStart (l : List Reservation) : List Reservation :=
  l.foldr insertByStart []

/-- The day query of `get_available_time_slots` (forms.py lines 584-589):
blocking reservations of the room whose window intersects the calendar day
(`date` is midnight of the day in minutes; the code's bound
`23:59:59.999999` is `date + 1440` exclusive at minute granularity). -/
def blockingOnDay (resvs : List Reservation) (room : Nat) (date : Int) :
    List Reservation :=
  resvs.filter fun r =>
    decide (r.meeting_room = room) && decide (r.start_time < date + 1440) &&
      decide (r.end_time > date) && r.status.isBlocking

/-- `get_available_time_slots(meeting_room, date, duration_minutes)`
(forms.py lines 573-623).  Work hours are hardcoded to 9:00-18:00
(`date + 540` to `date + 1080`). -/
def get_available_time_slots (resvs : List Reservation) (room : Nat) (date : Int)
    (duration_minutes : Int) : List TimeSlot :=
  sweepSlots (date + 1080) duration_minutes (date + 540)
    (sortByStart (blockingOnDay resvs room date))

/-- Modelled from the spec, for refinement comparison only (spec §4.2): the
described sweep emits the final slot `[cursor, workEnd)` under the
minimum-duration filter alone, with no separate `cursor < workEnd` guard. -/
def specSweep (work_end duration_minutes : Int) :
    Int → List Reservation → List TimeSlot
  | cursor, [] =>
      if work_end - cursor ≥ duration_minutes then
        [⟨cursor, work_end, work_end - cursor⟩]
      else []
  | cursor, r :: rest =>
      (if cursor < r.start_time ∧ r.start_time - cursor ≥ duration_minutes then
        [⟨cursor, r.start_time, r.start_time - cursor⟩]
      else []) ++ specSweep work_end duration_minutes (max cursor r.end_time) rest

/-- Ascending `start_time` order, the form in which the day query hands
reservations to the sweep. -/
def sortedByStart : List Reservation → Bool
  | [] => true
  | [_] => true
  | a :: b :: rest => decide (a.start_time ≤ b.start_time) && sortedByStart (b :: rest)

/-- Claim C3: for a positive minimum duration and a list of blocking
reservations sorted by start time, the code's cursor sweep computes exactly
the slots described by the spec's sweep; and on the concrete scenario
(9:00-18:00 work hours, one blocking reservation 12:00-13:00, 60-minute
minimum) the result is the two slots 9:00-12:00 and 13:00-18:00. -/
theorem claim_C3 :
    (∀ (l : List Reservation) (work_start work_end m : Int), 0 < m →
      sortedByStart l = true →
      sweepSlots work_end m work_start l = specSweep work_end m work_start l)
    ∧ get_available_time_slots [⟨1, 1, 720, 780, .confirmed⟩] 1 0 60 =
        [⟨540, 720, 180⟩, ⟨780, 1080, 300⟩] := by
  constructor
  · intro l
    induction l with
    | nil =>
        intro work_start work_end m hm _
        simp only [sweepSlots, specSweep]
        split_ifs with h1 h2 h3 <;> first | rfl | omega
    | cons r rest ih =>
        intro work_start work_end m hm hsorted
        have hrest : sortedByStart rest = true := by
          cases rest with
          | nil => rfl
          | cons b tl =>
              have := hsorted
              simp only [sortedByStart, Bool.and_eq_true] at this
              exact this.2
        simp only [sweepSlots, specSweep]
        rw [ih (max work_start r.end_time) work_end m hm hrest]
  · decide

theorem claim_C3_witness :
    (0 : Int) < 60 ∧ sortedByStart [⟨1, 1, 720, 780, .confirmed⟩] = true ∧
      sweepSlots 1080 60 540 [⟨1, 1, 720, 780, .confirmed⟩] =
        specSweep 1080 60 540 [⟨1, 1, 720, 780, .confirmed⟩] :=
  ⟨by decide, by decide,
    claim_C3.1 [⟨1, 1, 720, 780, .confirmed⟩] 540 1080 60 (by decide) (by decide)⟩

/-! ### Status transition controller (`ReservationStatusUpdateForm`, forms.py) -/

/-- `Reservation.STATUS_CHOICES` in declaration order (models.py). -/
def STATUS_CHOICES : List Status :=
  [.pending, .confirmed, .cancelled, .completed, .in_use, .rejected]

/-- The choice restriction built by `ReservationStatusUpdateForm.__init__`
(forms.py lines 464-487): the loop over `STATUS_CHOICES` keeps, per current
status, only the permitted targets; for the terminal statuses the whole list
is overwritten with the singleton current status each iteration. -/
def statusUpdateChoices (current : Status) : List Status :=
  STATUS_CHOICES.foldl
    (fun acc sv =>
      if current = .pending then
        if sv = .confirmed ∨ sv = .rejected ∨ sv = .cancelled then acc ++ [sv] else acc
      else if current = .confirmed then
        if sv = .in_use ∨ sv = .cancelled then acc ++ [sv] else acc
      else if current = .in_use then
        if sv = .completed then acc ++ [sv] else acc
      else [current])
    []

/-- The error with which a status update outside the restricted choices is
rejected (Django rejects a value outside the field's `choices` as an invalid
choice; the spec calls this `InvalidTransition`). -/
inductive TransitionError
  | invalidTransition
deriving DecidableEq, Repr

/-- The status-update operation: a requested status is accepted exactly when
it is among the form's restricted choices, otherwise the request fails
validation; nothing is clamped or ignored. -/
def transitionStatus (current requested : Status) : Except TransitionError Status :=
  if requested ∈ statusUpdateChoices current then .ok requested
  else .error .invalidTransition

/-- Claim C4: the status-update form permits exactly the status changes
pending to confirmed/rejected/cancelled, confirmed to in_use/cancelled, and
in_use to completed; no status change out of completed, cancelled or rejected
is permitted; every other request yields the invalid-transition error rather
than being clamped or ignored, in particular completed to confirmed. -/
theorem claim_C4 :
    (∀ s t : Status, t ≠ s →
      (transitionStatus s t = .ok t ↔
        (s = .pending ∧ (t = .confirmed ∨ t = .rejected ∨ t = .cancelled)) ∨
        (s = .confirmed ∧ (t = .in_use ∨ t = .cancelled)) ∨
        (s = .in_use ∧ t = .completed)))
    ∧ (∀ s t : Status, transitionStatus s t = .ok t ∨
        transitionStatus s t = .error .invalidTransition)
    ∧ transitionStatus .completed .confirmed = .error .invalidTransition := by
  refine ⟨?_, ?_, ?_⟩ <;> decide

theorem claim_C4_witness :
    Status.confirmed ≠ Status.pending ∧
      transitionStatus .pending .confirmed = .ok .confirmed :=
  ⟨by decide,
    (claim_C4.1 .pending .confirmed (by decide)).mpr (Or.inl ⟨rfl, Or.inl rfl⟩)⟩

/-! ### Initial status on creation -/

/-- Initial status assigned by the `quick_reservation` view (views.py lines
444-466): `STATUS_PENDING`, overwritten with `STATUS_CONFIRMED` when the
tenant's `ReservationConfig` exists and satisfies
`not require_approval or auto_approval`; a missing config row
(`DoesNotExist`) keeps the default. -/
def quick_reservation_status (cfg : Option ReservationConfig) : Status :=
  match cfg with
  | none => .pending
  | some c => if !c.require_approval || c.auto_approval then .confirmed else .pending

/-- Initial status of a reservation created through
`ReservationCreateView`/`ReservationForm` (views.py lines 290-318, forms.py
lines 87-249): `status` is not among the form's fields and the view never
assigns it, so the model field default `STATUS_PENDING` (models.py line 146)
applies whatever the tenant configuration says. -/
def reservation_form_create_status (_cfg : Option ReservationConfig) : Status :=
  .pending

/-- A tenant configuration with `require_approval = false` (the model
default) and `auto_approval = false`. -/
def cfgNoApproval : ReservationConfig :=
  { max_advance_days := 30, min_duration_minutes := 15, max_duration_hours := 8,
    allow_weekend_booking := false, work_start_time := 540, work_end_time := 1080,
    require_approval := false, auto_approval := false }

/-- Claim C5 counterexample: with a tenant configuration having
`require_approval = false`, a reservation created through the standard
create view still starts as `pending`, not `confirmed` as the claim states
for every creation. -/
theorem claim_C5_counterexample :
    cfgNoApproval.require_approval = false ∧
      reservation_form_create_status (some cfgNoApproval) = .pending ∧
      Status.pending ≠ Status.confirmed := by
  refine ⟨rfl, rfl, by decide⟩

/-- Claim C5 as amended: a creation through the quick-reservation flow starts
as `pending`, unless the tenant's configuration exists and has
`require_approval = false` or `auto_approval = true`, in which case it starts
as `confirmed`; a creation through the standard reservation form always
starts as `pending` (the model default), regardless of configuration. -/
theorem claim_C5_amended :
    quick_reservation_status none = .pending
    ∧ (∀ c : ReservationConfig,
        quick_reservation_status (some c) =
          if c.require_approval = false ∨ c.auto_approval = true then .confirmed
          else .pending)
    ∧ (∀ cfg : Option ReservationConfig, reservation_form_create_status cfg = .pending) := by
  refine ⟨rfl, ?_, fun _ => rfl⟩
  intro c
  cases hr : c.require_approval <;> cases ha : c.auto_approval <;>
    simp [quick_reservation_status, hr, ha]

/-! ### Write-time validation (`Reservation.clean`, models.py lines 165-212) -/

/-- The Python truthiness guard
`if self.participant_count and self.participant_count > capacity` in
`Reservation.clean`: `None` and `0` are falsy, so the capacity comparison
only runs for a nonzero supplied count. -/
def participantOverCapacity (cand : ReservationDraft) (capacity : Int) : Bool :=
  match cand.participant_count with
  | none => false
  | some n => decide (n ≠ 0) && decide (n > capacity)

/-- The `ValidationError`s raised by `Reservation.clean`, in source order;
each carries exactly what its message interpolates (only the capacity
message interpolates a value, the room capacity). -/
inductive CleanError
  | endNotAfterStart
  | pastTime
  | durationTooShort
  | durationTooLong
  | timeConflict
  | capacityExceeded (capacity : Int)
deriving DecidableEq, Repr

/-- `Reservation.clean` (models.py lines 165-212): in source order it rejects
`start_time >= end_time`, then `start_time < now`, then a duration below
900 s (15 min) or above 28800 s (480 min), then a conflicting blocking
reservation, then a nonzero participant count above the room capacity.
The duration and working-hour bounds are hardcoded; `ReservationConfig` is
not consulted. -/
def clean (cand : ReservationDraft) (capacity : Int) (existing : List Reservation)
    (now : Int) : Except CleanError Unit :=
  if cand.end_time ≤ cand.start_time then .error .endNotAfterStart
  else if cand.start_time < now then .error .pastTime
  else if cand.end_time - cand.start_time < 15 then .error .durationTooShort
  else if cand.end_time - cand.start_time > 480 then .error .durationTooLong
  else if hasConflict cand existing then .error .timeConflict
  else if participantOverCapacity cand capacity then .error (.capacityExceeded capacity)
  else .ok ()

theorem clean_eq_ok_iff (cand : ReservationDraft) (capacity : Int)
    (existing : List Reservation) (now : Int) :
    clean cand capacity existing now = .ok () ↔
      (cand.start_time < cand.end_time ∧ now ≤ cand.start_time ∧
        15 ≤ cand.end_time - cand.start_time ∧ cand.end_time - cand.start_time ≤ 480 ∧
        hasConflict cand existing = false ∧
        participantOverCapacity cand capacity = false) := by
  unfold clean
  split_ifs with h1 h2 h3 h4 h5 h6 <;> simp_all
  omega

theorem clean_eq_timeConflict_iff (cand : ReservationDraft) (capacity : Int)
    (existing : List Reservation) (now : Int) :
    clean cand capacity existing now = .error .timeConflict ↔
      (cand.start_time < cand.end_time ∧ now ≤ cand.start_time ∧
        15 ≤ cand.end_time - cand.start_time ∧ cand.end_time - cand.start_time ≤ 480 ∧
        hasConflict cand existing = true) := by
  unfold clean
  split_ifs with h1 h2 h3 h4 h5 h6 <;> simp_all
  omega

theorem clean_eq_capacity_iff (cand : ReservationDraft) (capacity : Int)
    (existing : List Reservation) (now : Int) :
    clean cand capacity existing now = .error (.capacityExceeded capacity) ↔
      (cand.start_time < cand.end_time ∧ now ≤ cand.start_time ∧
        15 ≤ cand.end_time - cand.start_time ∧ cand.end_time - cand.start_time ≤ 480 ∧
        hasConflict cand existing = false ∧
        participantOverCapacity cand capacity = true) := by
  unfold clean
  split_ifs with h1 h2 h3 h4 h5 h6 <;> simp_all
  omega

/-- Claim C7 counterexample: room capacity 10, one existing confirmed
reservation 9:00-10:00, draft 9:30-10:30 with participant_count 12 (both a
capacity excess and a conflict): `clean` raises the conflict error, not the
capacity error the claim predicts, because the capacity check is the last
check in the source, after conflict detection. -/
theorem claim_C7_counterexample :
    participantOverCapacity ⟨none, 1, 570, 630, .pending, some 12⟩ 10 = true ∧
      hasConflict ⟨none, 1, 570, 630, .pending, some 12⟩ [⟨1, 1, 540, 600, .confirmed⟩] = true ∧
      clean ⟨none, 1, 570, 630, .pending, some 12⟩ 10 [⟨1, 1, 540, 600, .confirmed⟩] 0 =
        .error .timeConflict ∧
      CleanError.timeConflict ≠ CleanError.capacityExceeded 10 := by
  refine ⟨by decide, by decide, by decide, by decide⟩

/-- Claim C7 as amended: validation performs its checks in the source order
(1) temporal validity, (2) non-past booking, (3) duration bounds,
(4) conflict detection, (5) capacity; the conflict error is produced exactly
when checks 1-3 pass and a conflict exists — even if the capacity is also
exceeded — and the capacity error is produced exactly when checks 1-4 pass
and a nonzero participant count exceeds the room capacity. -/
theorem claim_C7_amended (cand : ReservationDraft) (capacity : Int)
    (existing : List Reservation) (now : Int) :
    (clean cand capacity existing now = .error .timeConflict ↔
      (cand.start_time < cand.end_time ∧ now ≤ cand.start_time ∧
        15 ≤ cand.end_time - cand.start_time ∧ cand.end_time - cand.start_time ≤ 480 ∧
        hasConflict cand existing = true))
    ∧ (clean cand capacity existing now = .error (.capacityExceeded capacity) ↔
      (cand.start_time < cand.end_time ∧ now ≤ cand.start_time ∧
        15 ≤ cand.end_time - cand.start_time ∧ cand.end_time - cand.start_time ≤ 480 ∧
        hasConflict cand existing = false ∧
        participantOverCapacity cand capacity = true)) :=
  ⟨clean_eq_timeConflict_iff cand capacity existing now,
    clean_eq_capacity_iff cand capacity existing now⟩

/-- Modelled from the spec, for refinement comparison only (spec §3, §4.1
check 3): the duration check the claim describes, reading the tenant's
configured bounds. -/
def durationCheckSpec (cfg : ReservationConfig) (start_time end_time : Int) : Bool :=
  decide (cfg.min_duration_minutes ≤ end_time - start_time) &&
    decide (end_time - start_time ≤ 60 * cfg.max_duration_hours)

/-- A tenant configuration with a 30-minute minimum duration and an
8:00-17:00 working window. -/
def cfgStrict : ReservationConfig :=
  { max_advance_days := 30, min_duration_minutes := 30, max_duration_hours := 8,
    allow_weekend_booking := false, work_start_time := 480, work_end_time := 1020,
    require_approval := false, auto_approval := false }

/-- Claim C6 counterexample: with the tenant's configuration demanding a
30-minute minimum, `clean` still accepts a 20-minute draft — the code checks
the hardcoded 15-minute/8-hour bounds and never consults `ReservationConfig`;
likewise `get_available_time_slots` answers with the hardcoded 9:00-18:00
window (slot starting at minute 540) although the configuration sets an
8:00 work start (minute 480). -/
theorem claim_C6_counterexample :
    cfgStrict.min_duration_minutes = 30 ∧
      clean ⟨none, 1, 100, 120, .pending, none⟩ 10 [] 0 = .ok () ∧
      durationCheckSpec cfgStrict 100 120 = false ∧
      cfgStrict.work_start_time = 480 ∧
      get_available_time_slots [] 1 0 60 = [⟨540, 1080, 540⟩] := by
  refine ⟨rfl, by decide, by decide, rfl, by decide⟩

/-- Claim C6 as amended: the duration check accepts a draft (all other checks
passing) iff its duration lies within the hardcoded bounds of 15 minutes and
8 hours, and the availability calculator uses the hardcoded 9:00-18:00
working window; the tenant's `ReservationConfig` bounds and working hours are
not consulted (they exist in the data model, with 15 min / 8 h and
9:00-18:00 as defaults, but the engine reads fixed constants). -/
theorem claim_C6_amended :
    (∀ (cand : ReservationDraft) (capacity : Int) (existing : List Reservation) (now : Int),
      clean cand capacity existing now = .ok () ↔
        (cand.start_time < cand.end_time ∧ now ≤ cand.start_time ∧
          15 ≤ cand.end_time - cand.start_time ∧ cand.end_time - cand.start_time ≤ 480 ∧
          hasConflict cand existing = false ∧
          participantOverCapacity cand capacity = false))
    ∧ (∀ (room : Nat) (date m : Int), 0 < m → m ≤ 540 →
        get_available_time_slots [] room date m = [⟨date + 540, date + 1080, 540⟩]) := by
  constructor
  · exact clean_eq_ok_iff
  · intro room date m hm hm540
    simp only [get_available_time_slots, blockingOnDay, sortByStart, List.filter_nil,
      List.foldr_nil, sweepSlots]
    rw [if_pos]
    · have h : date + 1080 - (date + 540) = 540 := by ring
      rw [h]
    · constructor <;> omega

theorem claim_C6_amended_witness :
    (0 : Int) < 60 ∧ (60 : Int) ≤ 540 ∧
      get_available_time_slots [] 1 0 60 = [⟨540, 1080, 540⟩] :=
  ⟨by decide, by decide, claim_C6_amended.2 1 0 60 (by decide) (by decide)⟩

/-! ### The conflict-count API (`api_check_time_conflict`, views.py) -/

/-- `api_check_time_conflict` (views.py lines 663-706): the same overlap
queryset, the candidate row excluded when a `reservation_id` parameter is
supplied; the JSON answer carries `is_conflicting` and `conflicting_count`. -/
def api_check_time_conflict (resvs : List Reservation) (room : Nat)
    (start_time end_time : Int) (reservation_id : Option Nat) : Bool × Nat :=
  let base := resvs.filter fun r : Reservation =>
    decide (r.meeting_room = room) && r.status.isBlocking &&
      decide (r.start_time < end_time) && decide (r.end_time > start_time)
  let conflicting :=
    match reservation_id with
    | some p => base.filter fun r : Reservation => decide (r.pk ≠ p)
    | none => base
  (!conflicting.isEmpty, conflicting.length)

/-- Claim C8 counterexample: the conflict `ValidationError` raised by
`Reservation.clean` is the constant message `该时间段已被预约，请选择其他时间`
and carries no count — the draft 9:30-10:30 is rejected with the identical
error both against one conflicting reservation (9:00-10:00) and against two
(9:00-10:00 and 10:00-11:00), so the error cannot report the count the claim
describes. -/
theorem claim_C8_counterexample :
    clean ⟨none, 1, 570, 630, .pending, none⟩ 10 [⟨1, 1, 540, 600, .confirmed⟩] 0 =
        .error .timeConflict ∧
      clean ⟨none, 1, 570, 630, .pending, none⟩ 10
          [⟨1, 1, 540, 600, .confirmed⟩, ⟨2, 1, 600, 660, .confirmed⟩] 0 =
        .error .timeConflict ∧
      (conflictingReservations ⟨none, 1, 570, 630, .pending, none⟩
          [⟨1, 1, 540, 600, .confirmed⟩]).length = 1 ∧
      (conflictingReservations ⟨none, 1, 570, 630, .pending, none⟩
          [⟨1, 1, 540, 600, .confirmed⟩, ⟨2, 1, 600, 660, .confirmed⟩]).length = 2 := by
  refine ⟨by decide, by decide, by decide, by decide⟩

/-- Claim C8 as amended: any match makes validation reject the draft with the
conflict error, which carries a fixed message and no count; the count of
conflicting reservations is reported only by the separate
`api_check_time_conflict` endpoint — on the scenario (existing confirmed
9:00-10:00, draft 9:30-10:30) it answers `is_conflicting = true` with
`conflicting_count = 1`. -/
theorem claim_C8_amended :
    (∀ (cand : ReservationDraft) (capacity : Int) (existing : List Reservation) (now : Int),
      cand.start_time < cand.end_time → now ≤ cand.start_time →
      15 ≤ cand.end_time - cand.start_time → cand.end_time - cand.start_time ≤ 480 →
      hasConflict cand existing = true →
      clean cand capacity existing now = .error .timeConflict)
    ∧ api_check_time_conflict [⟨1, 1, 540, 600, .confirmed⟩] 1 570 630 none = (true, 1) := by
  constructor
  · intro cand capacity existing now h1 h2 h3 h4 h5
    exact (clean_eq_timeConflict_iff cand capacity existing now).mpr ⟨h1, h2, h3, h4, h5⟩
  · decide

theorem claim_C8_amended_witness :
    clean ⟨none, 1, 570, 630, .pending, none⟩ 10 [⟨1, 1, 540, 600, .confirmed⟩] 0 =
      .error .timeConflict :=
  claim_C8_amended.1 ⟨none, 1, 570, 630, .pending, none⟩ 10 [⟨1, 1, 540, 600, .confirmed⟩] 0
    (by decide) (by decide) (by decide) (by decide) (by decide)

/-! ### Saving (`Reservation.save`, models.py lines 214-217) -/

/-- The stored row resulting from persisting a draft under primary key `p`. -/
def Reservation.ofDraft (p : Nat) (d : ReservationDraft) : Reservation :=
  { pk := p, meeting_room := d.meeting_room, start_time := d.start_time,
    end_time := d.end_time, status := d.status }

/-- The store after an UPDATE of row `p` with the draft's values. -/
def updateAt (s : List Reservation) (p : Nat) (d : ReservationDraft) : List Reservation :=
  s.map fun r => if r.pk = p then Reservation.ofDraft p d else r

/-- `Reservation.save` on an existing row: `full_clean()` runs `clean` first
and the write happens only when it passes; a `ValidationError` propagates and
the stored data is untouched. -/
def save_update (s : List Reservation) (p : Nat) (d : ReservationDraft)
    (capacity now : Int) : Except CleanError (List Reservation) :=
  match clean d capacity s now with
  | .error e => .error e
  | .ok _ => .ok (updateAt s p d)

/-- Claim C9: every save re-runs the full write-time validation — an update
succeeds only when `clean` passes on the current store — and consequently any
update of a reservation whose start time is already in the past at save time,
status transitions permitted by the state machine included, fails with a
validation error and leaves the store unchanged. -/
theorem claim_C9 :
    (∀ (s : List Reservation) (p : Nat) (d : ReservationDraft) (capacity now : Int)
        (t : List Reservation),
      save_update s p d capacity now = .ok t → clean d capacity s now = .ok ())
    ∧ (∀ (s : List Reservation) (p : Nat) (d : ReservationDraft) (capacity now : Int),
        d.start_time < now → ∃ e, save_update s p d capacity now = .error e) := by
  constructor
  · intro s p d capacity now t h
    unfold save_update at h
    cases hc : clean d capacity s now with
    | error e => rw [hc] at h; exact absurd h (by simp)
    | ok u => cases u; rfl
  · intro s p d capacity now hpast
    unfold save_update clean
    split_ifs <;> exact ⟨_, rfl⟩

/-- The state of a meeting that is in use and began an hour ago, and the
draft the status-update form submits to complete it. -/
def storeC9 : List Reservation := [⟨1, 1, -60, 60, .in_use⟩]

def draftC9 : ReservationDraft :=
  { pk := some 1, meeting_room := 1, start_time := -60, end_time := 60,
    status := .completed, participant_count := none }

theorem claim_C9_witness :
    draftC9.start_time < 0 ∧ ∃ e, save_update storeC9 1 draftC9 10 0 = .error e :=
  ⟨by decide, claim_C9.2 storeC9 1 draftC9 10 0 (by decide)⟩

/-! ### Reachable states of the reservation store -/

/-- A successful write to the reservation store.  Every write path in the
repository (form saves, the quick-reservation view, `reservation_cancel`,
the status-update form, the admin) goes through `Reservation.save`, which
runs `full_clean` — hence `clean` against the current store — before the
row is inserted or updated.  `caps` maps a room id to its capacity. -/
inductive Step (caps : Nat → Int) : List Reservation → List Reservation → Prop
  | create (s : List Reservation) (d : ReservationDraft) (p : Nat) (now : Int)
      (hpk : d.pk = none)
      (hfresh : p ∉ s.map Reservation.pk)
      (hclean : clean d (caps d.meeting_room) s now = .ok ()) :
      Step caps s (s ++ [Reservation.ofDraft p d])
  | update (s : List Reservation) (d : ReservationDraft) (p : Nat) (now : Int)
      (hpk : d.pk = some p)
      (hmem : p ∈ s.map Reservation.pk)
      (hclean : clean d (caps d.meeting_room) s now = .ok ()) :
      Step caps s (updateAt s p d)

/-- States produced from the empty store by a sequence of successful creates,
updates and status changes (a status change is an update that only rewrites
the status field). -/
inductive Reachable (caps : Nat → Int) : List Reservation → Prop
  | nil : Reachable caps []
  | step {s t : List Reservation} : Reachable caps s → Step caps s t → Reachable caps t

/-- No two distinct reservations of the same room, both in a blocking status,
have overlapping half-open time windows. -/
def NoOverlap (s : List Reservation) : Prop :=
  ∀ a ∈ s, ∀ b ∈ s, a.pk ≠ b.pk → a.meeting_room = b.meeting_room →
    a.status.isBlocking = true → b.status.isBlocking = true →
    ¬(a.start_time < b.end_time ∧ b.start_time < a.end_time)

/-- Primary keys are pairwise distinct. -/
def pkNodup (s : List Reservation) : Prop :=
  (s.map Reservation.pk).Nodup

theorem clean_ok_no_blocking_overlap {d : ReservationDraft} {cap : Int}
    {existing : List Reservation} {now : Int}
    (h : clean d cap existing now = .ok ()) :
    ∀ r ∈ existing, r.meeting_room = d.meeting_room → r.status.isBlocking = true →
      (∀ p, d.pk = some p → r.pk ≠ p) →
      ¬(r.start_time < d.end_time ∧ r.end_time > d.start_time) := by
  intro r hm hroom hblock hexcl hov
  have hfc : hasConflict d existing = false :=
    ((clean_eq_ok_iff d cap existing now).mp h).2.2.2.2.1
  have htc : hasConflict d existing = true :=
    (hasConflict_eq_true_iff d existing).mpr
      ⟨r, hm, (conflictsWith_eq_true_iff d r).mpr ⟨hroom, hblock, hov.1, hov.2⟩, hexcl⟩
  rw [hfc] at htc
  exact Bool.false_ne_true htc

theorem updateAt_map_pk (s : List Reservation) (p : Nat) (d : ReservationDraft) :
    (updateAt s p d).map Reservation.pk = s.map Reservation.pk := by
  unfold updateAt
  rw [List.map_map]
  apply List.map_congr_left
  intro r _
  by_cases h : r.pk = p <;> simp [h, Reservation.ofDraft]

theorem ofDraft_pk (p : Nat) (d : ReservationDraft) :
    (Reservation.ofDraft p d).pk = p := rfl

theorem step_preserves {caps : Nat → Int} {s t : List Reservation}
    (hst : Step caps s t) (hinv : pkNodup s ∧ NoOverlap s) :
    pkNodup t ∧ NoOverlap t := by
  obtain ⟨hnod, hno⟩ := hinv
  cases hst with
  | create d p now hpk hfresh hclean =>
      constructor
      · unfold pkNodup at hnod ⊢
        rw [List.map_append]
        simp only [List.nodup_append, List.map_cons, List.map_nil]
        exact ⟨hnod, List.nodup_singleton p, by
          intro q hq hq1
          simp only [ofDraft_pk, List.mem_singleton] at hq1
          exact hfresh (hq1 ▸ hq)⟩
      · intro a ha b hb hab hroom hablk hbblk hov
        rw [List.mem_append, List.mem_singleton] at ha hb
        rcases ha with ha | ha <;> rcases hb with hb | hb
        · exact hno a ha b hb hab hroom hablk hbblk hov
        · subst hb
          exact clean_ok_no_blocking_overlap hclean a ha hroom hablk
            (fun q hq => by rw [hpk] at hq; cases hq) ⟨hov.1, hov.2⟩
        · subst ha
          refine clean_ok_no_blocking_overlap hclean b hb hroom.symm hbblk
            (fun q hq => by rw [hpk] at hq; cases hq) ⟨hov.2, hov.1⟩
        · subst ha hb
          exact hab rfl
  | update d p now hpk hmem hclean =>
      constructor
      · unfold pkNodup at hnod ⊢
        rw [updateAt_map_pk]
        exact hnod
      · intro a ha b hb hab hroom hablk hbblk hov
        unfold updateAt at ha hb
        obtain ⟨ra, hra, haeq⟩ := List.mem_map.mp ha
        obtain ⟨rb, hrb, hbeq⟩ := List.mem_map.mp hb
        by_cases hrap : ra.pk = p <;> by_cases hrbp : rb.pk = p
        · rw [if_pos hrap] at haeq
          rw [if_pos hrbp] at hbeq
          exact hab (haeq ▸ hbeq ▸ rfl)
        · rw [if_pos hrap] at haeq
          rw [if_neg hrbp] at hbeq
          subst haeq hbeq
          exact clean_ok_no_blocking_overlap hclean rb hrb hroom.symm hbblk
            (fun q hq => by rw [hpk] at hq; injection hq with h; exact h ▸ hrbp)
            ⟨hov.2, hov.1⟩
        · rw [if_neg hrap] at haeq
          rw [if_pos hrbp] at hbeq
          subst haeq hbeq
          exact clean_ok_no_blocking_overlap hclean ra hra hroom hablk
            (fun q hq => by rw [hpk] at hq; injection hq with h; exact h ▸ hrap)
            ⟨hov.1, hov.2⟩
        · rw [if_neg hrap] at haeq
          rw [if_neg hrbp] at hbeq
          subst haeq hbeq
          exact hno ra hra rb hrb hab hroom hablk hbblk hov

theorem reachable_inv {caps : Nat → Int} {s : List Reservation}
    (h : Reachable caps s) : pkNodup s ∧ NoOverlap s := by
  induction h with
  | nil =>
      refine ⟨by simp [pkNodup], ?_⟩
      intro a ha
      cases ha
  | step _ hst ih => exact step_preserves hst ih

/-- Claim C2: in every state of the reservation store reachable from the
empty store by successful creates, updates and status changes, no two
distinct reservations of the same room that are both in a blocking status
(pending, confirmed, in_use) have overlapping half-open time windows. -/
theorem claim_C2 (caps : Nat → Int) (s : List Reservation)
    (h : Reachable caps s) : NoOverlap s :=
  (reachable_inv h).2

def draftC2 : ReservationDraft :=
  { pk := none, meeting_room := 1, start_time := 100, end_time := 160,
    status := .pending, participant_count := none }

theorem claim_C2_witness :
    NoOverlap [Reservation.ofDraft 1 draftC2] :=
  claim_C2 (fun _ => 10) ([] ++ [Reservation.ofDraft 1 draftC2])
    (Reachable.step Reachable.nil
      (Step.create [] draftC2 1 0 rfl (by simp) (by decide)))

/-! ### The available-slots API (`api_available_slots`, views.py lines 590-621) -/

/-- The room lookup
`MeetingRoom.objects.get(id=.., company=user_profile.company, is_available=True)`:
`none` models the `DoesNotExist` the view catches. -/
def findRoom (rooms : List MeetingRoom) (roomId company : Nat) : Option MeetingRoom :=
  rooms.find? fun r : MeetingRoom =>
    decide (r.id = roomId) && decide (r.company = company) && r.is_available

/-- `api_available_slots`: the room lookup and the
`datetime.strptime(date_str, '%Y-%m-%d')` parse (`parsedDate = none` models a
malformed date string) run inside one `try`; `MeetingRoom.DoesNotExist`,
`ValueError` and `TypeError` are all answered with
`JsonResponse({'available_slots': []})`, the same shape a fully booked day
produces. -/
def api_available_slots (rooms : List MeetingRoom) (resvs : List Reservation)
    (company roomId : Nat) (parsedDate : Option Int) (duration : Int) : List TimeSlot :=
  match findRoom rooms roomId company, parsedDate with
  | some room, some date => get_available_time_slots resvs room.id date duration
  | _, _ => []

/-- Claim C10: whenever no room row matches the requested id for the caller's
tenant with its availability flag set — the id does not exist, the room
belongs to another tenant, or it is unavailable — or the date string fails to
parse, the available-slots API answers the empty slot list rather than an
error; a valid request against a fully booked day answers the same empty
list, so the two cases are indistinguishable. -/
theorem claim_C10 :
    (∀ (rooms : List MeetingRoom) (resvs : List Reservation) (company roomId : Nat)
        (parsedDate : Option Int) (duration : Int),
      ((∀ r ∈ rooms, ¬(r.id = roomId ∧ r.company = company ∧ r.is_available = true)) ∨
          parsedDate = none) →
      api_available_slots rooms resvs company roomId parsedDate duration = [])
    ∧ api_available_slots [⟨1, 1, 10, true⟩] [⟨1, 1, 540, 1080, .confirmed⟩] 1 1
        (some 0) 60 = [] := by
  constructor
  · intro rooms resvs company roomId parsedDate duration h
    unfold api_available_slots
    rcases h with h | h
    · have hnone : findRoom rooms roomId company = none := by
        rw [findRoom, List.find?_eq_none]
        intro r hr
        have := h r hr
        simp only [Bool.and_eq_true, decide_eq_true_iff]
        tauto
      rw [hnone]
    · subst h
      cases hfind : findRoom rooms roomId company <;> rfl
  · decide

theorem claim_C10_witness :
    api_available_slots [] [] 1 1 (some 0) 60 = [] :=
  claim_C10.1 [] [] 1 1 (some 0) 60 (Or.inl (by simp))

end MeetingRoomSaas
